import Mathlib

/-!
Verification of the `StoryGenerator` component
(`src/app/quests/components/StoryGenerator/index.tsx`).

The component's generation handler is embedded as a pure function producing
the ordered list of effects (state-setter invocations and the outbound
request) that one invocation performs, given an environment describing how
the network call resolves.  A small interpreter threads those effects
through the observable state (persisted story, display-expanded flag,
error message, loading flag), so both temporal properties (order of
effects within the trace) and end-state properties can be stated.
-/

namespace StoryGen

/-- A task entry as read from the store: only its `status` field is inspected
by the component; everything else is kept opaque in `payload`. -/
structure Task where
  status : String
  payload : String
deriving DecidableEq, Repr

/-- The narrative settings object with the three fields the handler checks.
JavaScript truthiness of a string field is emptiness: `!s.universe` holds
exactly when the string is `""`. -/
structure Settings where
  «universe» : String
  character : String
  narrativeStyle : String
deriving DecidableEq, Repr

/-- A parsed JSON response body as the component consumes it: the value of its
`error` field when that field is present (as a string), and the rest of the
document kept opaque in `raw`.  An absent field is `none` (falsy
`undefined`). -/
structure JsonValue where
  errorField : Option String
  raw : String
deriving DecidableEq, Repr

/-- A thrown JavaScript value: whether it is an `Error` instance
(`instanceof Error`), and its message (for a non-`Error` value, `message`
records its stringification, which the component never reads). -/
structure Exc where
  isError : Bool
  message : String
deriving DecidableEq, Repr

/-- Outcome of `await response.json()`: either a parsed value or a thrown
parse exception. -/
inductive BodyParse where
  | ok (v : JsonValue)
  | throws (e : Exc)
deriving DecidableEq, Repr

/-- Environment for one generation attempt: how `fetch` and the subsequent
body parse resolve.  `throws` is a rejection of the `fetch` call itself;
`resp ok body` is a response with the given `response.ok` flag whose body
parses as `body`. -/
inductive FetchEnv where
  | throws (e : Exc)
  | resp (ok : Bool) (body : BodyParse)
deriving DecidableEq, Repr

/-- The payload of the POST to `/api/generate`: the active task list, the
settings object and the selected model identifier. -/
structure Request where
  tasks : List Task
  settings : Settings
  model : String
deriving DecidableEq, Repr

/-- One observable effect performed by the component, in program order. -/
inductive Event where
  | setGenerating (b : Bool)
  | setError (v : Option String)
  | fetchCall (r : Request)
  | setStory (v : JsonValue)
  | setShowStory (b : Bool)
  | clearStory
deriving DecidableEq, Repr

/-- The observable state: the story persisted in the external store, and the
component's local view state (display-expanded flag, error message, loading
flag). -/
structure CState where
  story : Option JsonValue
  showStory : Bool
  error : Option String
  isGenerating : Bool
deriving DecidableEq, Repr

/-- Effect of one event on the observable state.  The store operations are
modelled from the spec: `setStory` overwrites the persisted story with the
value handed to it, `clearStory` sets it to empty/absent; the store itself
is outside the provided source. `fetchCall` records the outbound request and
changes no state. -/
def applyEvent (s : CState) (e : Event) : CState :=
  match e with
  | .setGenerating b => { s with isGenerating := b }
  | .setError v => { s with error := v }
  | .fetchCall _ => s
  | .setStory v => { s with story := some v }
  | .setShowStory b => { s with showStory := b }
  | .clearStory => { s with story := none }

/-- Run a trace of events from a starting state. -/
def run (s : CState) (es : List Event) : CState := es.foldl applyEvent s

/-- `tasks.filter(task => task.status === 'active')` — the memoized
`activeTasks` list. -/
def activeTasks (tasks : List Task) : List Task :=
  tasks.filter (fun t => t.status == "active")

/-- `err instanceof Error ? err.message : 'Failed to generate story'` —
the message stored by the `catch` clause. -/
def catchMessage (e : Exc) : String :=
  if e.isError then e.message else "Failed to generate story"

/-- `errorData.error || 'Failed to generate story'` — the message of the
`Error` constructed for a non-ok response whose body parsed.  An absent or
empty (falsy) `error` field selects the fallback. -/
def errorDataMessage (v : JsonValue) : String :=
  match v.errorField with
  | some s => if s = "" then "Failed to generate story" else s
  | none => "Failed to generate story"

/-- The `try` block of `handleGenerateStory` (after validation): issue the
fetch, then branch on how the environment resolves it, with the `catch`
clause folded in.  A non-ok response first parses the body (which may throw),
then throws an `Error` carrying `errorDataMessage`; that `Error` is caught
and its message stored.  An ok response parses the body and on success hands
it unchanged to the store and expands the display. -/
def tryBody (req : Request) (env : FetchEnv) : List Event :=
  Event.fetchCall req ::
    match env with
    | .throws e => [Event.setError (some (catchMessage e))]
    | .resp ok body =>
      if ok then
        match body with
        | .ok v => [Event.setStory v, Event.setShowStory true]
        | .throws e => [Event.setError (some (catchMessage e))]
      else
        match body with
        | .ok v => [Event.setError (some (errorDataMessage v))]
        | .throws e => [Event.setError (some (catchMessage e))]

/-- The full `handleGenerateStory` handler as the trace of effects of one
invocation: the active-task-count guard, then the settings-completeness
guard, then loading-flag set, error cleared, the request/response cycle,
and the `finally` clause clearing the loading flag. -/
def handleGenerateStory (tasks : List Task) (settings : Settings)
    (aiModel : String) (env : FetchEnv) : List Event :=
  if (activeTasks tasks).length = 0 then
    [Event.setError (some "No active tasks to generate story from")]
  else if settings.«universe» = "" ∨ settings.character = "" ∨
      settings.narrativeStyle = "" then
    [Event.setError (some "Please configure your story settings first")]
  else
    Event.setGenerating true :: Event.setError none ::
      (tryBody ⟨activeTasks tasks, settings, aiModel⟩ env ++
        [Event.setGenerating false])

/-- `handleClearStory`: delegate deletion to the store, collapse the
display. -/
def handleClearStory : List Event :=
  [Event.clearStory, Event.setShowStory false]

/-- An environment is a failure unless it is an ok response whose body
parses. -/
def isFailureEnv : FetchEnv → Bool
  | .resp true (.ok _) => false
  | _ => true

/-- The exception thrown by the environment itself, when there is one. -/
def failureExc : FetchEnv → Option Exc
  | .throws e => some e
  | .resp _ (.throws e) => some e
  | .resp _ (.ok _) => none

/-- Modelled from the spec (as amended): the user-facing message a failure
environment should produce — the truthy `error` string of a non-ok parsed
body, the message of a thrown `Error` instance, and the generic fallback
"Failed to generate story" otherwise (including for a thrown non-`Error`
value). -/
def expectedErrorMessage : FetchEnv → Option String
  | .throws e =>
    some (if e.isError then e.message else "Failed to generate story")
  | .resp true (.ok _) => none
  | .resp true (.throws e) =>
    some (if e.isError then e.message else "Failed to generate story")
  | .resp false (.ok v) =>
    some (match v.errorField with
      | some s => if s = "" then "Failed to generate story" else s
      | none => "Failed to generate story")
  | .resp false (.throws e) =>
    some (if e.isError then e.message else "Failed to generate story")

/- Concrete fixtures used by witnesses and counterexamples. -/

/-- A task in the eligible status. -/
def task0 : Task := ⟨"active", "slay the gate boss"⟩

/-- A task in a non-eligible status. -/
def task1 : Task := ⟨"completed", "clear the dungeon"⟩

/-- Fully populated settings. -/
def settings0 : Settings := ⟨"Solo Leveling", "Sung Jinwoo", "epic fantasy"⟩

/-- An initial observable state with no story, collapsed display, no error,
not loading. -/
def s0 : CState := ⟨none, false, none, false⟩

/-- A parsed story body fixture. -/
def story0 : JsonValue := ⟨none, "an epic tale"⟩

/-- Unfolding of the handler when both validation checks pass. -/
theorem handleGenerateStory_valid (tasks : List Task) (settings : Settings)
    (aiModel : String) (env : FetchEnv)
    (h1 : (activeTasks tasks).length ≠ 0)
    (h2 : settings.«universe» ≠ "") (h3 : settings.character ≠ "")
    (h4 : settings.narrativeStyle ≠ "") :
    handleGenerateStory tasks settings aiModel env =
      Event.setGenerating true :: Event.setError none ::
        (tryBody ⟨activeTasks tasks, settings, aiModel⟩ env ++
          [Event.setGenerating false]) := by
  unfold handleGenerateStory
  rw [if_neg h1, if_neg]
  simp [h2, h3, h4]

/-- Unfolding of the handler when a validation check fails: the trace is one
of the two singleton error traces. -/
theorem handleGenerateStory_invalid (tasks : List Task) (settings : Settings)
    (aiModel : String) (env : FetchEnv)
    (h : (activeTasks tasks).length = 0 ∨ settings.«universe» = "" ∨
      settings.character = "" ∨ settings.narrativeStyle = "") :
    handleGenerateStory tasks settings aiModel env =
        [Event.setError (some "No active tasks to generate story from")] ∨
      handleGenerateStory tasks settings aiModel env =
        [Event.setError (some "Please configure your story settings first")] := by
  unfold handleGenerateStory
  by_cases h0 : (activeTasks tasks).length = 0
  · left
    rw [if_pos h0]
  · rcases h with h0' | hs
    · exact absurd h0' h0
    · right
      rw [if_neg h0, if_pos hs]

/-- The `catch` clause stores an empty message only for an `Error` instance
whose own message is empty. -/
theorem catchMessage_empty (e : Exc) (hm : catchMessage e = "") :
    e = ⟨true, ""⟩ := by
  cases e with
  | mk ie msg =>
    cases ie with
    | true =>
      have h : catchMessage ⟨true, msg⟩ = msg := rfl
      rw [h] at hm
      rw [hm]
    | false =>
      have h : catchMessage ⟨false, msg⟩ = "Failed to generate story" := rfl
      rw [h] at hm
      exact absurd hm (by decide)

/-- The message of a constructed response-failure `Error` is never empty. -/
theorem errorDataMessage_ne_empty (v : JsonValue) : errorDataMessage v ≠ "" := by
  unfold errorDataMessage
  cases hv : v.errorField with
  | none => decide
  | some s =>
    by_cases hs : s = ""
    · simp [hs]
    · simp [hs]

/-- C8: `handleClearStory` deletes the persisted story via the store's
`clearStory` and collapses the display, and changes nothing else: it never
touches the error message or the loading flag. -/
theorem clear_story_frame :
    Event.clearStory ∈ handleClearStory ∧
    (∀ v, Event.setError v ∉ handleClearStory) ∧
    (∀ b, Event.setGenerating b ∉ handleClearStory) ∧
    ∀ s : CState, run s handleClearStory =
      { story := none, showStory := false, error := s.error,
        isGenerating := s.isGenerating } := by
  refine ⟨by simp [handleClearStory], ?_, ?_, ?_⟩
  · intro v
    simp [handleClearStory]
  · intro b
    simp [handleClearStory]
  · intro s
    rfl

/-- C1 counterexample: with no active tasks and all three settings fields
empty, the stored message is "No active tasks to generate story from", not
"Please configure your story settings first" — the active-task-count check
runs first. -/
theorem settings_check_order_cex :
    (run s0 (handleGenerateStory [] ⟨"", "", ""⟩ "gpt-4o"
        (FetchEnv.resp true (BodyParse.ok story0)))).error =
      some "No active tasks to generate story from" ∧
    (run s0 (handleGenerateStory [] ⟨"", "", ""⟩ "gpt-4o"
        (FetchEnv.resp true (BodyParse.ok story0)))).error ≠
      some "Please configure your story settings first" := by
  constructor
  · rfl
  · decide

/-- C1 (amended): the active-task-count check runs before the
settings-completeness check, short-circuiting on the first failure: when any
of the three settings fields is empty, the stored message is "Please
configure your story settings first" only when the eligible-task count is
nonzero; when that count is zero the message is "No active tasks to generate
story from". -/
theorem settings_error_message_order (tasks : List Task) (settings : Settings)
    (aiModel : String) (env : FetchEnv) (s : CState)
    (h : settings.«universe» = "" ∨ settings.character = "" ∨
      settings.narrativeStyle = "") :
    (run s (handleGenerateStory tasks settings aiModel env)).error =
      some (if (activeTasks tasks).length = 0 then
          "No active tasks to generate story from"
        else "Please configure your story settings first") := by
  unfold handleGenerateStory
  by_cases h0 : (activeTasks tasks).length = 0
  · rw [if_pos h0, if_pos h0]
    rfl
  · rw [if_neg h0, if_pos h, if_neg h0]
    rfl

/-- Witness for the amended C1 at a concrete input. -/
theorem settings_error_message_order_witness :
    ((Settings.mk "" "Sung Jinwoo" "epic fantasy").«universe» = "" ∨
      (Settings.mk "" "Sung Jinwoo" "epic fantasy").character = "" ∨
      (Settings.mk "" "Sung Jinwoo" "epic fantasy").narrativeStyle = "") ∧
    (run s0 (handleGenerateStory [task0] ⟨"", "Sung Jinwoo", "epic fantasy"⟩
        "gpt-4o" (FetchEnv.throws ⟨true, "offline"⟩))).error =
      some (if (activeTasks [task0]).length = 0 then
          "No active tasks to generate story from"
        else "Please configure your story settings first") :=
  ⟨Or.inl rfl,
    settings_error_message_order [task0] ⟨"", "Sung Jinwoo", "epic fantasy"⟩
      "gpt-4o" (FetchEnv.throws ⟨true, "offline"⟩) s0 (Or.inl rfl)⟩

/-- C5: an invocation refused by validation (zero eligible tasks, or a
missing settings field) issues no network request and only sets the error
message: no loading-flag write appears in the trace, and the persisted
story, the display-expanded flag and the loading flag are unchanged. -/
theorem validation_failure_no_request (tasks : List Task)
    (settings : Settings) (aiModel : String) (env : FetchEnv) (s : CState)
    (h : (activeTasks tasks).length = 0 ∨ settings.«universe» = "" ∨
      settings.character = "" ∨ settings.narrativeStyle = "") :
    (∀ r, Event.fetchCall r ∉ handleGenerateStory tasks settings aiModel env) ∧
    (∀ b, Event.setGenerating b ∉
      handleGenerateStory tasks settings aiModel env) ∧
    (run s (handleGenerateStory tasks settings aiModel env)).story = s.story ∧
    (run s (handleGenerateStory tasks settings aiModel env)).showStory =
      s.showStory ∧
    (run s (handleGenerateStory tasks settings aiModel env)).isGenerating =
      s.isGenerating ∧
    ∃ m, (run s (handleGenerateStory tasks settings aiModel env)).error =
      some m := by
  rcases handleGenerateStory_invalid tasks settings aiModel env h with he | he <;>
    rw [he] <;>
    exact ⟨fun r => by simp, fun b => by simp, rfl, rfl, rfl, _, rfl⟩

/-- Witness for C5 at a concrete input with eligible tasks but an empty
character field. -/
theorem validation_failure_no_request_witness :
    ((activeTasks [task0]).length = 0 ∨
      (Settings.mk "Solo Leveling" "" "epic fantasy").«universe» = "" ∨
      (Settings.mk "Solo Leveling" "" "epic fantasy").character = "" ∨
      (Settings.mk "Solo Leveling" "" "epic fantasy").narrativeStyle = "") ∧
    ((∀ r, Event.fetchCall r ∉ handleGenerateStory [task0]
        ⟨"Solo Leveling", "", "epic fantasy"⟩ "gpt-4o"
        (FetchEnv.resp true (BodyParse.ok story0))) ∧
      (∀ b, Event.setGenerating b ∉ handleGenerateStory [task0]
        ⟨"Solo Leveling", "", "epic fantasy"⟩ "gpt-4o"
        (FetchEnv.resp true (BodyParse.ok story0))) ∧
      (run s0 (handleGenerateStory [task0]
        ⟨"Solo Leveling", "", "epic fantasy"⟩ "gpt-4o"
        (FetchEnv.resp true (BodyParse.ok story0)))).story = s0.story ∧
      (run s0 (handleGenerateStory [task0]
        ⟨"Solo Leveling", "", "epic fantasy"⟩ "gpt-4o"
        (FetchEnv.resp true (BodyParse.ok story0)))).showStory =
        s0.showStory ∧
      (run s0 (handleGenerateStory [task0]
        ⟨"Solo Leveling", "", "epic fantasy"⟩ "gpt-4o"
        (FetchEnv.resp true (BodyParse.ok story0)))).isGenerating =
        s0.isGenerating ∧
      ∃ m, (run s0 (handleGenerateStory [task0]
        ⟨"Solo Leveling", "", "epic fantasy"⟩ "gpt-4o"
        (FetchEnv.resp true (BodyParse.ok story0)))).error = some m) :=
  ⟨Or.inr (Or.inr (Or.inl rfl)),
    validation_failure_no_request [task0]
      ⟨"Solo Leveling", "", "epic fantasy"⟩ "gpt-4o"
      (FetchEnv.resp true (BodyParse.ok story0)) s0
      (Or.inr (Or.inr (Or.inl rfl)))⟩

/-- C3: once validation passes, the loading flag is set to true before the
request is issued and set back to false as the last effect on every exit
path, with no other loading-flag write in between; the final loading flag
is false. -/
theorem loading_flag_wraps_request (tasks : List Task) (settings : Settings)
    (aiModel : String) (env : FetchEnv) (s : CState)
    (h1 : (activeTasks tasks).length ≠ 0)
    (h2 : settings.«universe» ≠ "") (h3 : settings.character ≠ "")
    (h4 : settings.narrativeStyle ≠ "") :
    (∃ mid, handleGenerateStory tasks settings aiModel env =
        Event.setGenerating true :: Event.setError none ::
          Event.fetchCall ⟨activeTasks tasks, settings, aiModel⟩ ::
          (mid ++ [Event.setGenerating false]) ∧
        ∀ b, Event.setGenerating b ∉ mid) ∧
    (run s (handleGenerateStory tasks settings aiModel env)).isGenerating =
      false := by
  rw [handleGenerateStory_valid tasks settings aiModel env h1 h2 h3 h4]
  constructor
  · cases env with
    | throws e =>
      exact ⟨[Event.setError (some (catchMessage e))], rfl, by simp⟩
    | resp ok body =>
      cases ok with
      | false =>
        cases body with
        | ok v =>
          exact ⟨[Event.setError (some (errorDataMessage v))], rfl, by simp⟩
        | throws e =>
          exact ⟨[Event.setError (some (catchMessage e))], rfl, by simp⟩
      | true =>
        cases body with
        | ok v =>
          exact ⟨[Event.setStory v, Event.setShowStory true], rfl, by simp⟩
        | throws e =>
          exact ⟨[Event.setError (some (catchMessage e))], rfl, by simp⟩
  · cases env with
    | throws e => rfl
    | resp ok body => cases ok <;> cases body <;> rfl

/-- Witness for C3 at a concrete input whose request succeeds. -/
theorem loading_flag_wraps_request_witness :
    ((activeTasks [task0]).length ≠ 0 ∧ settings0.«universe» ≠ "" ∧
      settings0.character ≠ "" ∧ settings0.narrativeStyle ≠ "") ∧
    ((∃ mid, handleGenerateStory [task0] settings0 "gpt-4o"
        (FetchEnv.resp true (BodyParse.ok story0)) =
        Event.setGenerating true :: Event.setError none ::
          Event.fetchCall ⟨activeTasks [task0], settings0, "gpt-4o"⟩ ::
          (mid ++ [Event.setGenerating false]) ∧
        ∀ b, Event.setGenerating b ∉ mid) ∧
      (run s0 (handleGenerateStory [task0] settings0 "gpt-4o"
        (FetchEnv.resp true (BodyParse.ok story0)))).isGenerating = false) :=
  ⟨⟨by decide, by decide, by decide, by decide⟩,
    loading_flag_wraps_request [task0] settings0 "gpt-4o"
      (FetchEnv.resp true (BodyParse.ok story0)) s0
      (by decide) (by decide) (by decide) (by decide)⟩

/-- C2 counterexample: a generation attempt that fails because `fetch`
rejects with an `Error` whose message is empty stores the empty string as
the error message — the stored message is not non-empty on every failure. -/
theorem failure_empty_message_cex :
    isFailureEnv (FetchEnv.throws ⟨true, ""⟩) = true ∧
    (run s0 (handleGenerateStory [task0] settings0 "gpt-4o"
        (FetchEnv.throws ⟨true, ""⟩))).error = some "" :=
  ⟨rfl, rfl⟩

/-- C2 (amended): on every failed generation attempt the persisted story is
unchanged — `setStory` never appears in the trace — and an error message is
stored, non-empty except when the thrown value is an `Error` instance whose
own message is empty, in which case that empty message is stored. -/
theorem failure_preserves_story (tasks : List Task) (settings : Settings)
    (aiModel : String) (env : FetchEnv) (s : CState)
    (h1 : (activeTasks tasks).length ≠ 0)
    (h2 : settings.«universe» ≠ "") (h3 : settings.character ≠ "")
    (h4 : settings.narrativeStyle ≠ "")
    (hf : isFailureEnv env = true) :
    (∀ v, Event.setStory v ∉ handleGenerateStory tasks settings aiModel env) ∧
    (run s (handleGenerateStory tasks settings aiModel env)).story = s.story ∧
    ∃ m, (run s (handleGenerateStory tasks settings aiModel env)).error =
        some m ∧
      (m = "" → failureExc env = some ⟨true, ""⟩) := by
  rw [handleGenerateStory_valid tasks settings aiModel env h1 h2 h3 h4]
  cases env with
  | throws e =>
    refine ⟨fun v => by simp [tryBody], rfl, catchMessage e, rfl, ?_⟩
    intro hm
    rw [catchMessage_empty e hm]
    rfl
  | resp ok body =>
    cases ok with
    | true =>
      cases body with
      | ok v => simp [isFailureEnv] at hf
      | throws e =>
        refine ⟨fun v => by simp [tryBody], rfl, catchMessage e, rfl, ?_⟩
        intro hm
        rw [catchMessage_empty e hm]
        rfl
    | false =>
      cases body with
      | ok v =>
        refine ⟨fun w => by simp [tryBody], rfl, errorDataMessage v, rfl, ?_⟩
        intro hm
        exact absurd hm (errorDataMessage_ne_empty v)
      | throws e =>
        refine ⟨fun v => by simp [tryBody], rfl, catchMessage e, rfl, ?_⟩
        intro hm
        rw [catchMessage_empty e hm]
        rfl

/-- Witness for the amended C2 at a concrete failing response. -/
theorem failure_preserves_story_witness :
    ((activeTasks [task0]).length ≠ 0 ∧ settings0.«universe» ≠ "" ∧
      settings0.character ≠ "" ∧ settings0.narrativeStyle ≠ "" ∧
      isFailureEnv (FetchEnv.resp false
        (BodyParse.ok ⟨some "rate limited", "body"⟩)) = true) ∧
    ((∀ v, Event.setStory v ∉ handleGenerateStory [task0] settings0 "gpt-4o"
        (FetchEnv.resp false (BodyParse.ok ⟨some "rate limited", "body"⟩))) ∧
      (run s0 (handleGenerateStory [task0] settings0 "gpt-4o"
        (FetchEnv.resp false
          (BodyParse.ok ⟨some "rate limited", "body"⟩)))).story = s0.story ∧
      ∃ m, (run s0 (handleGenerateStory [task0] settings0 "gpt-4o"
        (FetchEnv.resp false
          (BodyParse.ok ⟨some "rate limited", "body"⟩)))).error = some m ∧
        (m = "" → failureExc (FetchEnv.resp false
          (BodyParse.ok ⟨some "rate limited", "body"⟩)) = some ⟨true, ""⟩)) :=
  ⟨⟨by decide, by decide, by decide, by decide, rfl⟩,
    failure_preserves_story [task0] settings0 "gpt-4o"
      (FetchEnv.resp false (BodyParse.ok ⟨some "rate limited", "body"⟩)) s0
      (by decide) (by decide) (by decide) (by decide) rfl⟩

/-- C4: on a successful response, the parsed body is handed unchanged to the
store's `setStory`, the persisted story equals it exactly, and the
display-expanded flag becomes true. -/
theorem success_sets_story_and_shows (tasks : List Task)
    (settings : Settings) (aiModel : String) (v : JsonValue) (s : CState)
    (h1 : (activeTasks tasks).length ≠ 0)
    (h2 : settings.«universe» ≠ "") (h3 : settings.character ≠ "")
    (h4 : settings.narrativeStyle ≠ "") :
    Event.setStory v ∈ handleGenerateStory tasks settings aiModel
        (FetchEnv.resp true (BodyParse.ok v)) ∧
    (run s (handleGenerateStory tasks settings aiModel
        (FetchEnv.resp true (BodyParse.ok v)))).story = some v ∧
    (run s (handleGenerateStory tasks settings aiModel
        (FetchEnv.resp true (BodyParse.ok v)))).showStory = true := by
  rw [handleGenerateStory_valid tasks settings aiModel
    (FetchEnv.resp true (BodyParse.ok v)) h1 h2 h3 h4]
  exact ⟨by simp [tryBody], rfl, rfl⟩

/-- Witness for C4 at a concrete input. -/
theorem success_sets_story_and_shows_witness :
    ((activeTasks [task0]).length ≠ 0 ∧ settings0.«universe» ≠ "" ∧
      settings0.character ≠ "" ∧ settings0.narrativeStyle ≠ "") ∧
    (Event.setStory story0 ∈ handleGenerateStory [task0] settings0 "gpt-4o"
        (FetchEnv.resp true (BodyParse.ok story0)) ∧
      (run s0 (handleGenerateStory [task0] settings0 "gpt-4o"
        (FetchEnv.resp true (BodyParse.ok story0)))).story = some story0 ∧
      (run s0 (handleGenerateStory [task0] settings0 "gpt-4o"
        (FetchEnv.resp true (BodyParse.ok story0)))).showStory = true) :=
  ⟨⟨by decide, by decide, by decide, by decide⟩,
    success_sets_story_and_shows [task0] settings0 "gpt-4o" story0 s0
      (by decide) (by decide) (by decide) (by decide)⟩

/-- C6 counterexample: when the thrown value is not an `Error` instance
(here a thrown string whose stringification is "boom"), the stored message
is the generic fallback "Failed to generate story", not the stringified
exception. -/
theorem non_error_throw_fallback_cex :
    (run s0 (handleGenerateStory [task0] settings0 "gpt-4o"
        (FetchEnv.throws ⟨false, "boom"⟩))).error =
      some "Failed to generate story" ∧
    (run s0 (handleGenerateStory [task0] settings0 "gpt-4o"
        (FetchEnv.throws ⟨false, "boom"⟩))).error ≠ some "boom" := by
  constructor
  · rfl
  · decide

/-- C6 (amended): for every failed attempt the stored message is: the
`error` string of a failure response body when truthy, otherwise the
generic fallback "Failed to generate story"; and for a thrown exception,
the exception's message when it is an `Error` instance, otherwise the
generic fallback (never the stringified exception). -/
theorem failure_message_derivation (tasks : List Task) (settings : Settings)
    (aiModel : String) (env : FetchEnv) (s : CState)
    (h1 : (activeTasks tasks).length ≠ 0)
    (h2 : settings.«universe» ≠ "") (h3 : settings.character ≠ "")
    (h4 : settings.narrativeStyle ≠ "")
    (hf : isFailureEnv env = true) :
    (run s (handleGenerateStory tasks settings aiModel env)).error =
      expectedErrorMessage env := by
  rw [handleGenerateStory_valid tasks settings aiModel env h1 h2 h3 h4]
  cases env with
  | throws e => rfl
  | resp ok body =>
    cases ok with
    | true =>
      cases body with
      | ok v => simp [isFailureEnv] at hf
      | throws e => rfl
    | false =>
      cases body with
      | ok v => rfl
      | throws e => rfl

/-- Witness for the amended C6 at a concrete non-`Error` throw. -/
theorem failure_message_derivation_witness :
    ((activeTasks [task0]).length ≠ 0 ∧ settings0.«universe» ≠ "" ∧
      settings0.character ≠ "" ∧ settings0.narrativeStyle ≠ "" ∧
      isFailureEnv (FetchEnv.throws ⟨false, "thrown string"⟩) = true) ∧
    (run s0 (handleGenerateStory [task0] settings0 "gpt-4o"
        (FetchEnv.throws ⟨false, "thrown string"⟩))).error =
      expectedErrorMessage (FetchEnv.throws ⟨false, "thrown string"⟩) :=
  ⟨⟨by decide, by decide, by decide, by decide, rfl⟩,
    failure_message_derivation [task0] settings0 "gpt-4o"
      (FetchEnv.throws ⟨false, "thrown string"⟩) s0
      (by decide) (by decide) (by decide) (by decide) rfl⟩

/-- C7: the eligible list is exactly the entries with status "active" in
the collection's original order (its length is the count of such entries,
and it is a sublist of the collection), and a validated invocation issues
exactly one request, carrying that filtered list, the full settings object
and the selected model identifier. -/
theorem request_carries_active_tasks (tasks : List Task)
    (settings : Settings) (aiModel : String) (env : FetchEnv)
    (h1 : (activeTasks tasks).length ≠ 0)
    (h2 : settings.«universe» ≠ "") (h3 : settings.character ≠ "")
    (h4 : settings.narrativeStyle ≠ "") :
    (activeTasks tasks).length =
      tasks.countP (fun t => t.status == "active") ∧
    List.Sublist (activeTasks tasks) tasks ∧
    (∀ t, t ∈ activeTasks tasks ↔ t ∈ tasks ∧ t.status = "active") ∧
    Event.fetchCall ⟨activeTasks tasks, settings, aiModel⟩ ∈
      handleGenerateStory tasks settings aiModel env ∧
    ∀ r, Event.fetchCall r ∈ handleGenerateStory tasks settings aiModel env →
      r = ⟨activeTasks tasks, settings, aiModel⟩ := by
  rw [handleGenerateStory_valid tasks settings aiModel env h1 h2 h3 h4]
  refine ⟨?_, ?_, ?_, ?_, ?_⟩
  · rw [activeTasks, List.countP_eq_length_filter]
  · exact List.filter_sublist tasks
  · intro t
    simp [activeTasks]
  · simp [tryBody]
  · intro r hr
    cases env with
    | throws e =>
      simp [tryBody] at hr
      exact hr
    | resp ok body =>
      cases ok with
      | true =>
        cases body with
        | ok v =>
          simp [tryBody] at hr
          exact hr
        | throws e =>
          simp [tryBody] at hr
          exact hr
      | false =>
        cases body with
        | ok v =>
          simp [tryBody] at hr
          exact hr
        | throws e =>
          simp [tryBody] at hr
          exact hr

/-- Witness for C7 on a mixed-status collection. -/
theorem request_carries_active_tasks_witness :
    ((activeTasks [task1, task0]).length ≠ 0 ∧ settings0.«universe» ≠ "" ∧
      settings0.character ≠ "" ∧ settings0.narrativeStyle ≠ "") ∧
    ((activeTasks [task1, task0]).length =
      List.countP (fun t => t.status == "active") [task1, task0] ∧
      List.Sublist (activeTasks [task1, task0]) [task1, task0] ∧
      (∀ t, t ∈ activeTasks [task1, task0] ↔
        t ∈ [task1, task0] ∧ t.status = "active") ∧
      Event.fetchCall ⟨activeTasks [task1, task0], settings0, "gpt-4o"⟩ ∈
        handleGenerateStory [task1, task0] settings0 "gpt-4o"
          (FetchEnv.resp true (BodyParse.ok story0)) ∧
      ∀ r, Event.fetchCall r ∈
          handleGenerateStory [task1, task0] settings0 "gpt-4o"
            (FetchEnv.resp true (BodyParse.ok story0)) →
        r = ⟨activeTasks [task1, task0], settings0, "gpt-4o"⟩) :=
  ⟨⟨by decide, by decide, by decide, by decide⟩,
    request_carries_active_tasks [task1, task0] settings0 "gpt-4o"
      (FetchEnv.resp true (BodyParse.ok story0))
      (by decide) (by decide) (by decide) (by decide)⟩

/-- C9: when a failure response's body carries an `error` field equal to the
empty string, the stored message is the generic fallback — the embedded
message is selected by truthiness, not key existence. -/
theorem empty_error_field_uses_fallback (tasks : List Task)
    (settings : Settings) (aiModel : String) (v : JsonValue) (s : CState)
    (h1 : (activeTasks tasks).length ≠ 0)
    (h2 : settings.«universe» ≠ "") (h3 : settings.character ≠ "")
    (h4 : settings.narrativeStyle ≠ "")
    (hv : v.errorField = some "") :
    (run s (handleGenerateStory tasks settings aiModel
        (FetchEnv.resp false (BodyParse.ok v)))).error =
      some "Failed to generate story" := by
  rw [handleGenerateStory_valid tasks settings aiModel
    (FetchEnv.resp false (BodyParse.ok v)) h1 h2 h3 h4]
  simp [tryBody, run, applyEvent, errorDataMessage, hv]

/-- Witness for C9 at a concrete body with an empty `error` field. -/
theorem empty_error_field_uses_fallback_witness :
    ((activeTasks [task0]).length ≠ 0 ∧ settings0.«universe» ≠ "" ∧
      settings0.character ≠ "" ∧ settings0.narrativeStyle ≠ "" ∧
      (JsonValue.mk (some "") "body").errorField = some "") ∧
    (run s0 (handleGenerateStory [task0] settings0 "gpt-4o"
        (FetchEnv.resp false (BodyParse.ok ⟨some "", "body"⟩)))).error =
      some "Failed to generate story" :=
  ⟨⟨by decide, by decide, by decide, by decide, rfl⟩,
    empty_error_field_uses_fallback [task0] settings0 "gpt-4o"
      ⟨some "", "body"⟩ s0
      (by decide) (by decide) (by decide) (by decide) rfl⟩

/-- C10: when a non-success response's body fails to parse, the parse
exception (an `Error` instance) is thrown before the constructed fallback
`Error` can be, so its message becomes the stored error message; the
persisted story is unchanged and the loading flag ends false. -/
theorem parse_throw_message_propagates (tasks : List Task)
    (settings : Settings) (aiModel : String) (e : Exc) (s : CState)
    (h1 : (activeTasks tasks).length ≠ 0)
    (h2 : settings.«universe» ≠ "") (h3 : settings.character ≠ "")
    (h4 : settings.narrativeStyle ≠ "")
    (he : e.isError = true) :
    (run s (handleGenerateStory tasks settings aiModel
        (FetchEnv.resp false (BodyParse.throws e)))).error = some e.message ∧
    (run s (handleGenerateStory tasks settings aiModel
        (FetchEnv.resp false (BodyParse.throws e)))).story = s.story ∧
    (run s (handleGenerateStory tasks settings aiModel
        (FetchEnv.resp false (BodyParse.throws e)))).isGenerating = false := by
  rw [handleGenerateStory_valid tasks settings aiModel
    (FetchEnv.resp false (BodyParse.throws e)) h1 h2 h3 h4]
  refine ⟨?_, rfl, rfl⟩
  simp [tryBody, run, applyEvent, catchMessage, he]

/-- Witness for C10 at a concrete malformed body. -/
theorem parse_throw_message_propagates_witness :
    ((activeTasks [task0]).length ≠ 0 ∧ settings0.«universe» ≠ "" ∧
      settings0.character ≠ "" ∧ settings0.narrativeStyle ≠ "" ∧
      (Exc.mk true "Unexpected token < in JSON").isError = true) ∧
    ((run s0 (handleGenerateStory [task0] settings0 "gpt-4o"
        (FetchEnv.resp false
          (BodyParse.throws ⟨true, "Unexpected token < in JSON"⟩)))).error =
      some (Exc.mk true "Unexpected token < in JSON").message ∧
      (run s0 (handleGenerateStory [task0] settings0 "gpt-4o"
        (FetchEnv.resp false
          (BodyParse.throws ⟨true, "Unexpected token < in JSON"⟩)))).story =
        s0.story ∧
      (run s0 (handleGenerateStory [task0] settings0 "gpt-4o"
        (FetchEnv.resp false
          (BodyParse.throws
            ⟨true, "Unexpected token < in JSON"⟩)))).isGenerating = false) :=
  ⟨⟨by decide, by decide, by decide, by decide, rfl⟩,
    parse_throw_message_propagates [task0] settings0 "gpt-4o"
      ⟨true, "Unexpected token < in JSON"⟩ s0
      (by decide) (by decide) (by decide) (by decide) rfl⟩

end StoryGen
